import Mathlib

/-!
# A shallow embedding of the `rco-cell` crate (`src/src/lib.rs`)

The crate exposes `RcOCell<T>`, a clonable strong handle to a shared slot
`Rc<RefCell<Option<T>>>`, and `WeakRcOCell<T>`, a weak handle to the same
slot.  We embed the slot as `CellState α`: the optional value together with
the runtime borrow state of the `RefCell` (how many shared guards are
outstanding, and whether an exclusive guard is outstanding).

Conventions of the embedding:

* A Rust panic is modelled as the `none` result of an `Option`-valued
  operation; a typed `Result` error is modelled with `Except RcOCellError`.
* Operations return the result paired with the slot state after the call;
  guards acquired and released inside a call cancel out, while a guard that
  outlives the call (from `borrow` / `borrow_mut`) is visible as an
  incremented reader count or a set writer flag.
* Rust callbacks become Lean functions.  A callback receiving
  `Option<&mut T>` can overwrite a present value in place but can never
  change whether a value is present; `writeView` encodes exactly that.
* `RefCell::swap` between two handles cannot be expressed on a single
  state when the handles alias, so the two cases of `RcOCell::swap` /
  `RcOCell::try_swap` are embedded separately: `swap`/`try_swap` act on two
  distinct slots, `swap_same`/`try_swap_same` on two handles of one slot.
* A weak handle is a liveness flag plus the slot state; dropping the last
  strong owner clears the flag.  `T::clone` is modelled as the identity
  copy of the value.
-/

namespace RcO

variable {α β : Type}

/-- The tri-state outcome returned by compute-style callbacks
(`RcOCellComputeResult`, lib.rs lines 8-15). -/
inductive RcOCellComputeResult (α : Type) where
  | Replace : α → RcOCellComputeResult α
  | Remove : RcOCellComputeResult α
  | DoNothing : RcOCellComputeResult α
deriving DecidableEq

/-- `RcOCellBorrowError` (lib.rs lines 17-26).  The payloads are the opaque
std `BorrowError` / `BorrowMutError` values and carry no information. -/
inductive RcOCellBorrowError where
  | Normal : RcOCellBorrowError
  | Mut : RcOCellBorrowError
deriving DecidableEq

/-- `RcOCellError` (lib.rs lines 31-46). -/
inductive RcOCellError where
  | NoValue : RcOCellError
  | Dropped : RcOCellError
  | BorrowError : RcOCellBorrowError → RcOCellError
deriving DecidableEq

/-- The state of the shared slot `Rc<RefCell<Option<T>>>`: the optional
value plus the runtime borrow state of the `RefCell`. -/
structure CellState (α : Type) where
  value : Option α
  readers : Nat
  writer : Bool
deriving DecidableEq

/-- A `RefCell` refuses an exclusive operation when any guard (shared or
exclusive) is outstanding. -/
def CellState.busy (s : CellState α) : Bool :=
  s.writer || decide (0 < s.readers)

/-- `RefCell::replace`: panics when any guard is outstanding, otherwise
installs the new optional value and returns the old one. -/
def rcReplace (s : CellState α) (nv : Option α) : Option (Option α × CellState α) :=
  if s.busy then none else some (s.value, { s with value := nv })

/-- `RefCell::borrow_mut`: panics when any guard is outstanding, otherwise
sets the writer flag. -/
def rcBorrowMut (s : CellState α) : Option (CellState α) :=
  if s.busy then none else some { s with writer := true }

/-- What the slot holds after a callback wrote through its `Option<&mut T>`
view: a present value may be overwritten in place, but the callback can
never change whether a value is present. -/
def writeView : Option α → Option α → Option α
  | none, _ => none
  | some o, none => some o
  | some _, some n => some n

namespace RcOCell

/-- `RcOCell::try_borrow` (lib.rs 260-268), as a total function.
`RefCell::try_borrow` fails exactly when an exclusive guard is
outstanding; a guard acquired on an empty slot is released again before
`NoValue` is returned, while on success `Ref::map` keeps the guard. -/
def tryBorrowE (s : CellState α) : Except RcOCellError α × CellState α :=
  if s.writer then (.error (.BorrowError .Normal), s)
  else match s.value with
    | none => (.error .NoValue, s)
    | some v => (.ok v, { s with readers := s.readers + 1 })

/-- `RcOCell::try_borrow` wrapped in the panic monad (it has no panic
path). -/
def try_borrow (s : CellState α) : Option (Except RcOCellError α × CellState α) :=
  some (tryBorrowE s)

/-- `RcOCell::try_borrow_mut` (lib.rs 246-254).  `RefCell::try_borrow_mut`
fails exactly when any guard is outstanding; a guard acquired on an empty
slot is released again before `NoValue` is returned, while on success
`RefMut::map` keeps the guard. -/
def tryBorrowMutE (s : CellState α) : Except RcOCellError α × CellState α :=
  if s.busy then (.error (.BorrowError .Mut), s)
  else match s.value with
    | none => (.error .NoValue, s)
    | some v => (.ok v, { s with writer := true })

/-- `RcOCell::try_borrow_mut` wrapped in the panic monad. -/
def try_borrow_mut (s : CellState α) : Option (Except RcOCellError α × CellState α) :=
  some (tryBorrowMutE s)

/-- `RcOCell::borrow` (lib.rs 274-276): `RefCell::borrow` panics when an
exclusive guard is outstanding, and the inner `unwrap` panics on an empty
slot. -/
def borrow (s : CellState α) : Option (α × CellState α) :=
  if s.writer then none
  else match s.value with
    | none => none
    | some v => some (v, { s with readers := s.readers + 1 })

/-- `RcOCell::borrow_mut` (lib.rs 282-284). -/
def borrow_mut (s : CellState α) : Option (α × CellState α) :=
  if s.busy then none
  else match s.value with
    | none => none
    | some v => some (v, { s with writer := true })

/-- `RcOCell::is_some` (lib.rs 290-298): peeks via `RefCell::try_borrow`,
which fails exactly when an exclusive guard is outstanding, in which case
presence is reported. -/
def is_some (s : CellState α) : Bool :=
  if s.writer then true else s.value.isSome

/-- `RcOCell::is_none` (lib.rs 304-312). -/
def is_none (s : CellState α) : Bool :=
  if s.writer then false else s.value.isNone

/-- `RcOCell::set` (lib.rs 541-543): `RefCell::replace` with the new value. -/
def set (v : α) (s : CellState α) : Option (Option α × CellState α) :=
  rcReplace s (some v)

/-- `RcOCell::clear` (lib.rs 557-559): `RefCell::replace` with `None`. -/
def clear (s : CellState α) : Option (Option α × CellState α) :=
  rcReplace s none

/-- `RcOCell::try_set` (lib.rs 548-551): probe with `try_borrow_mut`
(dropping the guard), then `set`. -/
def try_set (v : α) (s : CellState α) : Option (Except RcOCellError (Option α) × CellState α) :=
  if s.busy then some (.error (.BorrowError .Mut), s)
  else match set v s with
    | none => none
    | some p => some (.ok p.1, p.2)

/-- `RcOCell::try_clear` (lib.rs 565-568). -/
def try_clear (s : CellState α) : Option (Except RcOCellError (Option α) × CellState α) :=
  if s.busy then some (.error (.BorrowError .Mut), s)
  else match clear s with
    | none => none
    | some p => some (.ok p.1, p.2)

/-- `RcOCell::get_and_clear` (lib.rs 489-496): `RefCell::replace(None)`,
then panic when the slot was already empty. -/
def get_and_clear (s : CellState α) : Option (α × CellState α) :=
  match rcReplace s none with
  | none => none
  | some (old, s2) =>
    match old with
    | none => none
    | some v => some (v, s2)

/-- `RcOCell::try_get_and_clear` (lib.rs 502-510). -/
def try_get_and_clear (s : CellState α) : Option (Except RcOCellError α × CellState α) :=
  if s.busy then some (.error (.BorrowError .Mut), s)
  else match rcReplace s none with
    | none => none
    | some (old, s2) =>
      match old with
      | none => some (.error .NoValue, s2)
      | some v => some (.ok v, s2)

/-- `RcOCell::replace` (lib.rs 517-521): `get_and_clear`, then install the
new value. -/
def replace (v : α) (s : CellState α) : Option (α × CellState α) :=
  match get_and_clear s with
  | none => none
  | some (old, s2) =>
    match rcReplace s2 (some v) with
    | none => none
    | some p => some (old, p.2)

/-- `RcOCell::try_replace` (lib.rs 527-535). -/
def try_replace (v : α) (s : CellState α) : Option (Except RcOCellError α × CellState α) :=
  if s.busy then some (.error (.BorrowError .Mut), s)
  else match rcReplace s none with
    | none => none
    | some (old, s2) =>
      match old with
      | none => some (.error .NoValue, s2)
      | some o =>
        match rcReplace s2 (some v) with
        | none => none
        | some p => some (.ok o, p.2)

/-- `RcOCell::compute` (lib.rs 318-329): `RefCell::borrow_mut`, run the
callback on the view, drop the guard, then apply the tri-state outcome
through `set` / `clear`.  The callback is a function from the viewed
optional value to the value it leaves in the view and the outcome it
returns. -/
def compute (f : Option α → Option α × RcOCellComputeResult α) (s : CellState α) :
    Option (CellState α) :=
  if s.busy then none
  else
    let r := f s.value
    let s1 : CellState α := { s with value := writeView s.value r.1 }
    match r.2 with
    | .Replace t => (set t s1).map Prod.snd
    | .Remove => (clear s1).map Prod.snd
    | .DoNothing => some s1

/-- `RcOCell::try_compute` (lib.rs 335-348). -/
def try_compute (f : Option α → Option α × RcOCellComputeResult α) (s : CellState α) :
    Option (Except RcOCellError Unit × CellState α) :=
  if s.busy then some (.error (.BorrowError .Mut), s)
  else
    let r := f s.value
    let s1 : CellState α := { s with value := writeView s.value r.1 }
    match r.2 with
    | .Replace t => (set t s1).map (fun p => (.ok (), p.2))
    | .Remove => (clear s1).map (fun p => (.ok (), p.2))
    | .DoNothing => some (.ok (), s1)

/-- `RcOCell::compute_if_present` (lib.rs 357-373).  The callback receives
`&mut T`; it is a function from the value to the value it leaves in place
and the outcome it returns. -/
def compute_if_present (f : α → α × RcOCellComputeResult α) (s : CellState α) :
    Option (Bool × CellState α) :=
  if s.busy then none
  else match s.value with
    | none => some (false, s)
    | some v =>
      let r := f v
      let s1 : CellState α := { s with value := some r.1 }
      match r.2 with
      | .Replace t => (set t s1).map (fun p => (true, p.2))
      | .Remove => (clear s1).map (fun p => (true, p.2))
      | .DoNothing => some (true, s1)

/-- `RcOCell::try_compute_if_present` (lib.rs 381-397). -/
def try_compute_if_present (f : α → α × RcOCellComputeResult α) (s : CellState α) :
    Option (Except RcOCellError Bool × CellState α) :=
  if s.busy then some (.error (.BorrowError .Mut), s)
  else match s.value with
    | none => some (.ok false, s)
    | some v =>
      let r := f v
      let s1 : CellState α := { s with value := some r.1 }
      match r.2 with
      | .Replace t => (set t s1).map (fun p => (.ok true, p.2))
      | .Remove => (clear s1).map (fun p => (.ok true, p.2))
      | .DoNothing => some (.ok true, s1)

/-- `RcOCell::compute_if_absent` (lib.rs 405-424): probe with
`RefCell::try_borrow_mut` (contention means "not run"), return `false`
when a value is present, otherwise run the producer, drop the guard, and
`set` a produced value.  The producer callback takes no argument, so it is
just the optional value it produces. -/
def compute_if_absent (fv : Option α) (s : CellState α) : Option (Bool × CellState α) :=
  if s.busy then some (false, s)
  else if s.value.isSome then some (false, s)
  else match fv with
    | none => some (true, s)
    | some v =>
      match set v s with
      | none => none
      | some p => some (true, p.2)

/-- `RcOCell::if_present` (lib.rs 431-439): `RefCell::borrow`, run the
callback on the value, ignore the outcome it returns. -/
def if_present (f : α → RcOCellComputeResult α) (s : CellState α) :
    Option (Bool × CellState α) :=
  if s.writer then none
  else match s.value with
    | none => some (false, s)
    | some v =>
      let _ := f v
      some (true, s)

/-- `RcOCell::if_present_mut` (lib.rs 445-453): `RefCell::borrow_mut`, run
the callback on the mutable value, ignore the outcome it returns. -/
def if_present_mut (f : α → α × RcOCellComputeResult α) (s : CellState α) :
    Option (Bool × CellState α) :=
  if s.busy then none
  else match s.value with
    | none => some (false, s)
    | some v => some (true, { s with value := some (f v).1 })

/-- `RcOCell::try_if_present` (lib.rs 460-468). -/
def try_if_present (f : α → RcOCellComputeResult α) (s : CellState α) :
    Option (Except RcOCellError Bool × CellState α) :=
  if s.writer then some (.error (.BorrowError .Normal), s)
  else match s.value with
    | none => some (.ok false, s)
    | some v =>
      let _ := f v
      some (.ok true, s)

/-- `RcOCell::try_if_present_mut` (lib.rs 475-483). -/
def try_if_present_mut (f : α → α × RcOCellComputeResult α) (s : CellState α) :
    Option (Except RcOCellError Bool × CellState α) :=
  if s.busy then some (.error (.BorrowError .Mut), s)
  else match s.value with
    | none => some (.ok false, s)
    | some v => some (.ok true, { s with value := some (f v).1 })

/-- `RcOCell::map` (lib.rs 575-584): `RefCell::borrow` (panics exactly when
an exclusive guard is outstanding), `None` when empty, otherwise the
callback's result. -/
def map (g : α → β) (s : CellState α) : Option (Option β × CellState α) :=
  if s.writer then none
  else match s.value with
    | none => some (none, s)
    | some v => some (some (g v), s)

/-- `RcOCell::try_map` (lib.rs 591-600). -/
def try_map (g : α → β) (s : CellState α) :
    Option (Except RcOCellError (Option β) × CellState α) :=
  if s.writer then some (.error (.BorrowError .Normal), s)
  else match s.value with
    | none => some (.ok none, s)
    | some v => some (.ok (some (g v)), s)

/-- `RcOCell::map_mut` (lib.rs 607-616).  The callback receives `&mut T`;
it is a function from the value to the value it leaves in place and its
result. -/
def map_mut (g : α → α × β) (s : CellState α) : Option (Option β × CellState α) :=
  if s.busy then none
  else match s.value with
    | none => some (none, s)
    | some v => some (some (g v).2, { s with value := some (g v).1 })

/-- `RcOCell::try_map_mut` (lib.rs 623-632). -/
def try_map_mut (g : α → α × β) (s : CellState α) :
    Option (Except RcOCellError (Option β) × CellState α) :=
  if s.busy then some (.error (.BorrowError .Mut), s)
  else match s.value with
    | none => some (.ok none, s)
    | some v => some (.ok (some (g v).2), { s with value := some (g v).1 })

/-- `RcOCell::get_and_clone` (lib.rs 667-670): `borrow`, clone the value,
drop the guard at the end of the statement. -/
def get_and_clone (s : CellState α) : Option (α × CellState α) :=
  match borrow s with
  | none => none
  | some (v, _) => some (v, s)

/-- `RcOCell::try_get_and_clone` (lib.rs 676-679). -/
def try_get_and_clone (s : CellState α) : Option (Except RcOCellError α × CellState α) :=
  match (tryBorrowE s).1 with
  | .error e => some (.error e, s)
  | .ok v => some (.ok v, s)

/-- `RcOCell::swap` (lib.rs 645-649) between two handles of two distinct
slots: `RefCell::swap` panics when a guard is outstanding on either slot,
otherwise exchanges the optional values. -/
def swap (a b : CellState α) : Option (CellState α × CellState α) :=
  if a.busy || b.busy then none
  else some ({ a with value := b.value }, { b with value := a.value })

/-- `RcOCell::swap` between two handles of the same slot:
`RefCell::swap` is `mem::swap(&mut *self.borrow_mut(), &mut *other.borrow_mut())`,
and with `self` and `other` aliasing, the second `borrow_mut` always hits
the guard held by the first, so one of the two `borrow_mut` calls panics
in every state. -/
def swap_same (a : CellState α) : Option (CellState α) :=
  match rcBorrowMut a with
  | none => none
  | some a1 =>
    match rcBorrowMut a1 with
    | none => none
    | some a2 => some { a2 with writer := a.writer }

/-- `RcOCell::try_swap` (lib.rs 655-660) between two handles of two
distinct slots: probe both slots with `RcOCell::try_borrow_mut` (each
guard is dropped at once), then `swap`. -/
def try_swap (a b : CellState α) :
    Option (Except RcOCellError Unit × CellState α × CellState α) :=
  match (tryBorrowMutE a).1 with
  | .error e => some (.error e, a, b)
  | .ok _ =>
    match (tryBorrowMutE b).1 with
    | .error e => some (.error e, a, b)
    | .ok _ =>
      match swap a b with
      | none => none
      | some p => some (.ok (), p)

/-- `RcOCell::try_swap` between two handles of the same slot: both probes
run against the one slot, then `swap` aliases. -/
def try_swap_same (a : CellState α) : Option (Except RcOCellError Unit × CellState α) :=
  match (tryBorrowMutE a).1 with
  | .error e => some (.error e, a)
  | .ok _ =>
    match (tryBorrowMutE a).1 with
    | .error e => some (.error e, a)
    | .ok _ =>
      match swap_same a with
      | none => none
      | some a2 => some (.ok (), a2)

end RcOCell

/-- The three fixed diagnostic strings of the `Display` implementation
(lib.rs 167-171), keyed by the error `RcOCell::try_borrow` produced. -/
def displayErrString : RcOCellError → String
  | .NoValue => "No value present"
  | .BorrowError _ => "Value currently inaccessible because it is borrowed mutably somewhere"
  | .Dropped => "Value already dropped"

/-- `impl Display for RcOCell` (lib.rs 158-173): `try_borrow`; on success
render the value's own display form (`shw`), otherwise one of the three
fixed diagnostic strings.  The guard, when acquired, is dropped before
`fmt` returns, so only the error component matters. -/
def display (shw : α → String) (s : CellState α) : String :=
  match (RcOCell.tryBorrowE s).1 with
  | .ok v => shw v
  | .error e => displayErrString e

/-- A weak handle: the slot state plus a liveness flag; `alive = false`
models the state after the last strong owner was dropped. -/
structure WeakState (α : Type) where
  alive : Bool
  cell : CellState α
deriving DecidableEq

namespace WeakRcOCell

/-- `WeakRcOCell::upgrade` (lib.rs 705-712): panics when the slot is gone,
otherwise yields a strong handle to the same slot. -/
def upgrade (w : WeakState α) : Option (CellState α) :=
  if w.alive then some w.cell else none

/-- `WeakRcOCell::try_upgrade` (lib.rs 714-721), as a total function. -/
def tryUpgradeE (w : WeakState α) : Except RcOCellError (CellState α) :=
  if w.alive then .ok w.cell else .error .Dropped

/-- `WeakRcOCell::try_upgrade` wrapped in the panic monad. -/
def try_upgrade (w : WeakState α) : Option (Except RcOCellError (CellState α)) :=
  some (tryUpgradeE w)

/-- `WeakRcOCell::is_some` (lib.rs 728-742): `false` when the slot is gone;
otherwise `RefCell::try_borrow`, reporting presence when it fails. -/
def is_some (w : WeakState α) : Bool :=
  if w.alive then (if w.cell.writer then true else w.cell.value.isSome) else false

/-- `WeakRcOCell::is_none` (lib.rs 748-762). -/
def is_none (w : WeakState α) : Bool :=
  if w.alive then (if w.cell.writer then false else w.cell.value.isNone) else true

/-- `WeakRcOCell::set` (lib.rs 928-932): promote (panicking when dropped),
then `RcOCell::set`. -/
def set (v : α) (w : WeakState α) : Option (Option α × CellState α) :=
  if w.alive then RcOCell.set v w.cell else none

/-- `WeakRcOCell::try_set` (lib.rs 937-940). -/
def try_set (v : α) (w : WeakState α) :
    Option (Except RcOCellError (Option α) × CellState α) :=
  if w.alive then RcOCell.try_set v w.cell else some (.error .Dropped, w.cell)

/-- `WeakRcOCell::clear` (lib.rs 946-950). -/
def clear (w : WeakState α) : Option (Option α × CellState α) :=
  if w.alive then RcOCell.clear w.cell else none

/-- `WeakRcOCell::try_clear` (lib.rs 956-959). -/
def try_clear (w : WeakState α) :
    Option (Except RcOCellError (Option α) × CellState α) :=
  if w.alive then RcOCell.try_clear w.cell else some (.error .Dropped, w.cell)

/-- `WeakRcOCell::replace` (lib.rs 909-913). -/
def replace (v : α) (w : WeakState α) : Option (α × CellState α) :=
  if w.alive then RcOCell.replace v w.cell else none

/-- `WeakRcOCell::try_replace` (lib.rs 919-922). -/
def try_replace (v : α) (w : WeakState α) :
    Option (Except RcOCellError α × CellState α) :=
  if w.alive then RcOCell.try_replace v w.cell else some (.error .Dropped, w.cell)

/-- `WeakRcOCell::compute` (lib.rs 768-774). -/
def compute (f : Option α → Option α × RcOCellComputeResult α) (w : WeakState α) :
    Option (CellState α) :=
  if w.alive then RcOCell.compute f w.cell else none

/-- `WeakRcOCell::try_compute` (lib.rs 780-785). -/
def try_compute (f : Option α → Option α × RcOCellComputeResult α) (w : WeakState α) :
    Option (Except RcOCellError Unit × CellState α) :=
  if w.alive then RcOCell.try_compute f w.cell else some (.error .Dropped, w.cell)

/-- `WeakRcOCell::get_and_clear` (lib.rs 889-893). -/
def get_and_clear (w : WeakState α) : Option (α × CellState α) :=
  if w.alive then RcOCell.get_and_clear w.cell else none

/-- `WeakRcOCell::try_get_and_clear` (lib.rs 899-902). -/
def try_get_and_clear (w : WeakState α) :
    Option (Except RcOCellError α × CellState α) :=
  if w.alive then RcOCell.try_get_and_clear w.cell else some (.error .Dropped, w.cell)

/-- `WeakRcOCell::get_and_clone` (lib.rs 1015-1020). -/
def get_and_clone (w : WeakState α) : Option (α × CellState α) :=
  if w.alive then RcOCell.get_and_clone w.cell else none

/-- `WeakRcOCell::try_get_and_clone` (lib.rs 1026-1029). -/
def try_get_and_clone (w : WeakState α) :
    Option (Except RcOCellError α × CellState α) :=
  if w.alive then RcOCell.try_get_and_clone w.cell else some (.error .Dropped, w.cell)

/-- `WeakRcOCell::compute_if_absent` (lib.rs 821-827). -/
def compute_if_absent (fv : Option α) (w : WeakState α) : Option (Bool × CellState α) :=
  if w.alive then RcOCell.compute_if_absent fv w.cell else none

/-- `WeakRcOCell::try_compute_if_absent` (lib.rs 835-840): promotion
errors with `Dropped`, otherwise the (never-panicking) strong
`compute_if_absent` result is wrapped in `Ok`. -/
def try_compute_if_absent (fv : Option α) (w : WeakState α) :
    Option (Except RcOCellError Bool × CellState α) :=
  if w.alive then
    match RcOCell.compute_if_absent fv w.cell with
    | none => none
    | some p => some (.ok p.1, p.2)
  else some (.error .Dropped, w.cell)

/-- `WeakRcOCell::map` (lib.rs 966-972). -/
def map (g : α → β) (w : WeakState α) : Option (Option β × CellState α) :=
  if w.alive then RcOCell.map g w.cell else none

/-- `WeakRcOCell::try_map` (lib.rs 979-984). -/
def try_map (g : α → β) (w : WeakState α) :
    Option (Except RcOCellError (Option β) × CellState α) :=
  if w.alive then RcOCell.try_map g w.cell else some (.error .Dropped, w.cell)

/-- `WeakRcOCell::if_present` (lib.rs 847-852). -/
def if_present (f : α → RcOCellComputeResult α) (w : WeakState α) :
    Option (Bool × CellState α) :=
  if w.alive then RcOCell.if_present f w.cell else none

/-- `WeakRcOCell::try_if_present` (lib.rs 870-873). -/
def try_if_present (f : α → RcOCellComputeResult α) (w : WeakState α) :
    Option (Except RcOCellError Bool × CellState α) :=
  if w.alive then RcOCell.try_if_present f w.cell else some (.error .Dropped, w.cell)

end WeakRcOCell

/-! ## Helper lemmas -/

theorem writeView_self (v : Option α) : writeView v v = v := by
  cases v <;> rfl

theorem CellState.busy_value (s : CellState α) (x : Option α) :
    ({ s with value := x } : CellState α).busy = s.busy := rfl

theorem CellState.busy_eq_false (s : CellState α) :
    s.busy = false ↔ s.writer = false ∧ s.readers = 0 := by
  cases s with
  | mk v r w => cases w <;> simp [CellState.busy]

/-! ## The claims -/

/-- C8: `RcOCell::is_some` and `RcOCell::is_none` are total in every cell
state; whenever an exclusive borrow is outstanding (`writer = true`) they
report the value as present (`is_some = true`, `is_none = false`), and in
every other state they report exactly whether the slot holds a value.
The Boolean equalities below state all of this at once: `is_some` is
presence-or-writer, `is_none` is absence-and-no-writer. -/
theorem claim_C8 (α : Type) (s : CellState α) :
    RcOCell.is_some s = (s.writer || s.value.isSome)
      ∧ RcOCell.is_none s = (!s.writer && s.value.isNone) := by
  cases s with
  | mk v r w => cases w <;> simp [RcOCell.is_some, RcOCell.is_none]

/-- C10: on an empty, uncontended cell a `compute_if_absent` whose callback
produces no value still reports `true`, and the slot stays empty. -/
theorem claim_C10 (α : Type) (s : CellState α)
    (hb : s.busy = false) (hv : s.value = none) :
    RcOCell.compute_if_absent none s = some (true, s) ∧ s.value = none := by
  refine ⟨?_, hv⟩
  simp [RcOCell.compute_if_absent, hb, hv]

theorem claim_C10_witness :
    RcOCell.compute_if_absent none (⟨none, 0, false⟩ : CellState Nat)
        = some (true, ⟨none, 0, false⟩)
      ∧ (⟨none, 0, false⟩ : CellState Nat).value = none :=
  claim_C10 Nat ⟨none, 0, false⟩ (by decide) rfl

/-- C5: `compute_if_absent` never panics; it reports `true` only when the
slot was empty and exclusive access immediately obtainable; when the slot
is non-empty or access is contended it returns `false` with the state
unchanged; and on an empty uncontended cell whose callback produces `v`
it returns `true` and the slot afterwards holds `v`. -/
theorem claim_C5 (α : Type) (fv : Option α) (s : CellState α) :
    (RcOCell.compute_if_absent fv s).isSome = true
      ∧ (∀ s2, RcOCell.compute_if_absent fv s = some (true, s2) →
          s.busy = false ∧ s.value = none)
      ∧ (s.busy = true ∨ s.value.isSome = true →
          RcOCell.compute_if_absent fv s = some (false, s))
      ∧ (∀ v, s.busy = false → s.value = none → fv = some v →
          RcOCell.compute_if_absent fv s = some (true, { s with value := some v })) := by
  refine ⟨?_, ?_, ?_, ?_⟩
  · cases hb : s.busy <;>
      cases hv : s.value <;>
        cases fv <;>
          simp [RcOCell.compute_if_absent, RcOCell.set, rcReplace,
            CellState.busy_value, hb, hv]
  · intro s2 h
    cases hb : s.busy <;> cases hv : s.value <;>
      simp_all [RcOCell.compute_if_absent, RcOCell.set, rcReplace,
        CellState.busy_value]
  · intro h
    rcases h with h | h
    · simp [RcOCell.compute_if_absent, h]
    · cases hb : s.busy <;>
        simp [RcOCell.compute_if_absent, hb, h]
  · intro v hb hv hfv
    simp [RcOCell.compute_if_absent, RcOCell.set, rcReplace,
      CellState.busy_value, hb, hv, hfv]

theorem claim_C5_witness :
    RcOCell.compute_if_absent (some 7) (⟨none, 0, false⟩ : CellState Nat)
        = some (true, ⟨some 7, 0, false⟩)
      ∧ RcOCell.compute_if_absent (some 7) (⟨some 1, 0, false⟩ : CellState Nat)
        = some (false, ⟨some 1, 0, false⟩)
      ∧ RcOCell.compute_if_absent (some 7) (⟨none, 2, false⟩ : CellState Nat)
        = some (false, ⟨none, 2, false⟩) :=
  ⟨(claim_C5 Nat (some 7) ⟨none, 0, false⟩).2.2.2 7 (by decide) rfl rfl,
   (claim_C5 Nat (some 7) ⟨some 1, 0, false⟩).2.2.1 (Or.inr rfl),
   (claim_C5 Nat (some 7) ⟨none, 2, false⟩).2.2.1 (Or.inl (by decide))⟩

/-- C2: for a well-formed state (an outstanding guard implies a value was
present at its acquisition), `try_borrow` yields a shared guard over the
current value when a value is present and no exclusive guard is
outstanding, fails with `NoValue` on an empty slot, and fails with the
shared-conflict error `BorrowError Normal` when an exclusive guard is
outstanding; `try_borrow_mut` yields an exclusive guard when a value is
present and no guard of any kind is outstanding, fails with `NoValue` on
an empty slot, and fails with the exclusive-conflict error
`BorrowError Mut` when any guard is outstanding. -/
theorem claim_C2 (α : Type) (s : CellState α)
    (wf : s.writer = true ∨ 0 < s.readers → s.value.isSome = true) :
    (∀ v, s.value = some v → s.writer = false →
        RcOCell.try_borrow s = some (.ok v, { s with readers := s.readers + 1 }))
      ∧ (s.value = none → RcOCell.try_borrow s = some (.error .NoValue, s))
      ∧ (s.writer = true →
          RcOCell.try_borrow s = some (.error (.BorrowError .Normal), s))
      ∧ (∀ v, s.value = some v → s.writer = false → s.readers = 0 →
          RcOCell.try_borrow_mut s = some (.ok v, { s with writer := true }))
      ∧ (s.value = none → RcOCell.try_borrow_mut s = some (.error .NoValue, s))
      ∧ (s.writer = true ∨ 0 < s.readers →
          RcOCell.try_borrow_mut s = some (.error (.BorrowError .Mut), s)) := by
  refine ⟨?_, ?_, ?_, ?_, ?_, ?_⟩
  · intro v hv hw
    simp [RcOCell.try_borrow, RcOCell.tryBorrowE, hv, hw]
  · intro hv
    have hw : s.writer = false := by
      cases hwr : s.writer
      · rfl
      · have := wf (Or.inl hwr)
        rw [hv] at this
        simp at this
    simp [RcOCell.try_borrow, RcOCell.tryBorrowE, hv, hw]
  · intro hw
    simp [RcOCell.try_borrow, RcOCell.tryBorrowE, hw]
  · intro v hv hw hr
    simp [RcOCell.try_borrow_mut, RcOCell.tryBorrowMutE, CellState.busy, hv, hw, hr]
  · intro hv
    have hw : s.writer = false := by
      cases hwr : s.writer
      · rfl
      · have := wf (Or.inl hwr)
        rw [hv] at this
        simp at this
    have hr : s.readers = 0 := by
      by_contra h
      have := wf (Or.inr (Nat.pos_of_ne_zero h))
      rw [hv] at this
      simp at this
    simp [RcOCell.try_borrow_mut, RcOCell.tryBorrowMutE, CellState.busy, hv, hw, hr]
  · intro h
    have hb : s.busy = true := by
      rcases h with h | h
      · simp [CellState.busy, h]
      · simp [CellState.busy, h]
    simp [RcOCell.try_borrow_mut, RcOCell.tryBorrowMutE, hb]

theorem claim_C2_witness :
    RcOCell.try_borrow (⟨some 5, 0, false⟩ : CellState Nat)
        = some (.ok 5, ⟨some 5, 1, false⟩)
      ∧ RcOCell.try_borrow (⟨none, 0, false⟩ : CellState Nat)
        = some (.error .NoValue, ⟨none, 0, false⟩)
      ∧ RcOCell.try_borrow (⟨some 5, 0, true⟩ : CellState Nat)
        = some (.error (.BorrowError .Normal), ⟨some 5, 0, true⟩)
      ∧ RcOCell.try_borrow_mut (⟨some 5, 0, false⟩ : CellState Nat)
        = some (.ok 5, ⟨some 5, 0, true⟩)
      ∧ RcOCell.try_borrow_mut (⟨none, 0, false⟩ : CellState Nat)
        = some (.error .NoValue, ⟨none, 0, false⟩)
      ∧ RcOCell.try_borrow_mut (⟨some 5, 3, false⟩ : CellState Nat)
        = some (.error (.BorrowError .Mut), ⟨some 5, 3, false⟩) :=
  ⟨(claim_C2 Nat ⟨some 5, 0, false⟩ (by decide)).1 5 rfl rfl,
   (claim_C2 Nat ⟨none, 0, false⟩ (by decide)).2.1 rfl,
   (claim_C2 Nat ⟨some 5, 0, true⟩ (by decide)).2.2.1 rfl,
   (claim_C2 Nat ⟨some 5, 0, false⟩ (by decide)).2.2.2.1 5 rfl rfl rfl,
   (claim_C2 Nat ⟨none, 0, false⟩ (by decide)).2.2.2.2.1 rfl,
   (claim_C2 Nat ⟨some 5, 3, false⟩ (by decide)).2.2.2.2.2 (Or.inr (by decide))⟩

/-- C9: for a well-formed state (an exclusive guard implies a value is
present), the `Display` rendering yields the contained value's own display
form whenever a value is present and no exclusive borrow is outstanding
(outstanding shared guards do not matter, the reader count is arbitrary);
it yields the verbatim string `No value present` when the slot is empty,
the verbatim mutably-borrowed diagnostic when an exclusive borrow is
outstanding, and the error-to-string table maps the already-dropped cause
to the verbatim string `Value already dropped`. -/
theorem claim_C9 (α : Type) (shw : α → String) (s : CellState α)
    (wf : s.writer = true → s.value.isSome = true) :
    (∀ v, s.value = some v → s.writer = false → display shw s = shw v)
      ∧ (s.value = none → display shw s = "No value present")
      ∧ (s.writer = true →
          display shw s
            = "Value currently inaccessible because it is borrowed mutably somewhere")
      ∧ displayErrString .Dropped = "Value already dropped" := by
  refine ⟨?_, ?_, ?_, rfl⟩
  · intro v hv hw
    simp [display, RcOCell.tryBorrowE, hv, hw]
  · intro hv
    have hw : s.writer = false := by
      cases hwr : s.writer
      · rfl
      · have := wf hwr
        rw [hv] at this
        simp at this
    simp [display, RcOCell.tryBorrowE, displayErrString, hv, hw]
  · intro hw
    simp [display, RcOCell.tryBorrowE, displayErrString, hw]

theorem claim_C9_witness :
    display (fun _ => "Baum") (⟨some 0, 0, false⟩ : CellState Nat) = "Baum"
      ∧ display (fun _ => "Baum") (⟨some 0, 2, false⟩ : CellState Nat) = "Baum"
      ∧ display (fun _ => "Baum") (⟨none, 0, false⟩ : CellState Nat) = "No value present"
      ∧ display (fun _ => "Baum") (⟨some 0, 0, true⟩ : CellState Nat)
        = "Value currently inaccessible because it is borrowed mutably somewhere" :=
  ⟨(claim_C9 Nat (fun _ => "Baum") ⟨some 0, 0, false⟩ (by decide)).1 0 rfl rfl,
   (claim_C9 Nat (fun _ => "Baum") ⟨some 0, 2, false⟩ (by decide)).1 0 rfl rfl,
   (claim_C9 Nat (fun _ => "Baum") ⟨none, 0, false⟩ (by decide)).2.1 rfl,
   (claim_C9 Nat (fun _ => "Baum") ⟨some 0, 0, true⟩ (by decide)).2.2.1 rfl⟩

/-- C1: on a cell with no outstanding guards, `compute` acquires exclusive
access, runs the callback on the optional value, releases access and then
applies the returned tri-state outcome: `Replace x` leaves the slot
holding exactly `x`, `Remove` leaves it empty, and `DoNothing` leaves the
prior contents (value or absence) unchanged — from both populated and
empty slots, with the borrow state released afterwards (the post states
below carry the unchanged reader count and writer flag).  `try_compute`
returns `Ok` and applies the identical outcome.  The callback is assumed
not to overwrite the value through its mutable view (`hf`), which is the
reading under which "DoNothing changes nothing" is stated. -/
theorem claim_C1 (α : Type) (f : Option α → Option α × RcOCellComputeResult α)
    (s : CellState α) (hb : s.busy = false) (hf : (f s.value).1 = s.value) :
    (∀ x, (f s.value).2 = .Replace x →
        RcOCell.compute f s = some { s with value := some x }
          ∧ RcOCell.try_compute f s = some (.ok (), { s with value := some x }))
      ∧ ((f s.value).2 = .Remove →
          RcOCell.compute f s = some { s with value := none }
            ∧ RcOCell.try_compute f s = some (.ok (), { s with value := none }))
      ∧ ((f s.value).2 = .DoNothing →
          RcOCell.compute f s = some s
            ∧ RcOCell.try_compute f s = some (.ok (), s)) := by
  have h1 : writeView s.value (f s.value).1 = s.value := by
    rw [hf]
    exact writeView_self s.value
  refine ⟨?_, ?_, ?_⟩
  · intro x hx
    constructor <;>
      simp [RcOCell.compute, RcOCell.try_compute, RcOCell.set, rcReplace,
        CellState.busy_value, hb, h1, hx]
  · intro hx
    constructor <;>
      simp [RcOCell.compute, RcOCell.try_compute, RcOCell.clear, rcReplace,
        CellState.busy_value, hb, h1, hx]
  · intro hx
    constructor <;>
      simp [RcOCell.compute, RcOCell.try_compute, hb, h1, hx]

theorem claim_C1_witness :
    (RcOCell.compute (fun o => (o, .Replace 7)) (⟨some 1, 0, false⟩ : CellState Nat)
        = some ⟨some 7, 0, false⟩
      ∧ RcOCell.try_compute (fun o => (o, .Replace 7)) (⟨some 1, 0, false⟩ : CellState Nat)
        = some (.ok (), ⟨some 7, 0, false⟩))
      ∧ (RcOCell.compute (fun o => (o, .Remove)) (⟨some 1, 0, false⟩ : CellState Nat)
        = some ⟨none, 0, false⟩
      ∧ RcOCell.try_compute (fun o => (o, .Remove)) (⟨some 1, 0, false⟩ : CellState Nat)
        = some (.ok (), ⟨none, 0, false⟩))
      ∧ (RcOCell.compute (fun o => (o, .DoNothing)) (⟨none, 0, false⟩ : CellState Nat)
        = some ⟨none, 0, false⟩
      ∧ RcOCell.try_compute (fun o => (o, .DoNothing)) (⟨none, 0, false⟩ : CellState Nat)
        = some (.ok (), ⟨none, 0, false⟩)) :=
  ⟨(claim_C1 Nat (fun o => (o, .Replace 7)) ⟨some 1, 0, false⟩ (by decide) rfl).1 7 rfl,
   (claim_C1 Nat (fun o => (o, .Remove)) ⟨some 1, 0, false⟩ (by decide) rfl).2.1 rfl,
   (claim_C1 Nat (fun o => (o, .DoNothing)) ⟨none, 0, false⟩ (by decide) rfl).2.2 rfl⟩

/-- C6: `if_present`, `if_present_mut`, `try_if_present` and
`try_if_present_mut` run the callback exactly when a value is present and
report whether it ran, but the tri-state outcome the callback returns is
discarded: whatever outcome the callback `f` (resp. `g`) returns —
including `Replace` and `Remove` — the slot afterwards holds exactly what
the callback left through its borrowed view (unchanged for the shared
view, the in-place-written value for the mutable view). -/
theorem claim_C6 (α : Type) (s : CellState α) (f : α → RcOCellComputeResult α)
    (g : α → α × RcOCellComputeResult α) :
    (s.writer = false → s.value = none →
        RcOCell.if_present f s = some (false, s)
          ∧ RcOCell.try_if_present f s = some (.ok false, s))
      ∧ (∀ v, s.writer = false → s.value = some v →
          RcOCell.if_present f s = some (true, s)
            ∧ RcOCell.try_if_present f s = some (.ok true, s))
      ∧ (s.busy = false → s.value = none →
          RcOCell.if_present_mut g s = some (false, s)
            ∧ RcOCell.try_if_present_mut g s = some (.ok false, s))
      ∧ (∀ v, s.busy = false → s.value = some v →
          RcOCell.if_present_mut g s = some (true, { s with value := some (g v).1 })
            ∧ RcOCell.try_if_present_mut g s
              = some (.ok true, { s with value := some (g v).1 })) := by
  refine ⟨?_, ?_, ?_, ?_⟩
  · intro hw hv
    constructor <;> simp [RcOCell.if_present, RcOCell.try_if_present, hw, hv]
  · intro v hw hv
    constructor <;> simp [RcOCell.if_present, RcOCell.try_if_present, hw, hv]
  · intro hb hv
    constructor <;> simp [RcOCell.if_present_mut, RcOCell.try_if_present_mut, hb, hv]
  · intro v hb hv
    constructor <;> simp [RcOCell.if_present_mut, RcOCell.try_if_present_mut, hb, hv]

theorem claim_C6_witness :
    (RcOCell.if_present (fun _ => .Remove) (⟨some 1, 0, false⟩ : CellState Nat)
        = some (true, ⟨some 1, 0, false⟩)
      ∧ RcOCell.try_if_present (fun _ => .Remove) (⟨some 1, 0, false⟩ : CellState Nat)
        = some (.ok true, ⟨some 1, 0, false⟩))
      ∧ (RcOCell.if_present_mut (fun v => (v + 1, .Remove)) (⟨some 1, 0, false⟩ : CellState Nat)
        = some (true, ⟨some 2, 0, false⟩)
      ∧ RcOCell.try_if_present_mut (fun v => (v + 1, .Remove)) (⟨some 1, 0, false⟩ : CellState Nat)
        = some (.ok true, ⟨some 2, 0, false⟩)) :=
  ⟨(claim_C6 Nat ⟨some 1, 0, false⟩ (fun _ => .Remove) (fun v => (v + 1, .Remove))).2.1
      1 rfl rfl,
   (claim_C6 Nat ⟨some 1, 0, false⟩ (fun _ => .Remove) (fun v => (v + 1, .Remove))).2.2.2
      1 (by decide) rfl⟩

/-- C4: for two cells backed by distinct slots holding values `x` and `y`,
with neither slot under any outstanding guard, `swap` leaves the first
cell holding `y` and the second holding `x` (borrow state untouched), and
`try_swap` does the same returning `Ok`; `swap` aborts exactly when either
slot is under some access, and `try_swap` fails — with both slots left
unchanged — exactly when either slot is under some access. -/
theorem claim_C4 (α : Type) (a b : CellState α) (x y : α)
    (hx : a.value = some x) (hy : b.value = some y) :
    (a.busy = false → b.busy = false →
        RcOCell.swap a b = some ({ a with value := some y }, { b with value := some x })
          ∧ RcOCell.try_swap a b
            = some (.ok (), { a with value := some y }, { b with value := some x }))
      ∧ (RcOCell.swap a b = none ↔ (a.busy = true ∨ b.busy = true))
      ∧ ((∃ e, RcOCell.try_swap a b = some (.error e, a, b))
          ↔ (a.busy = true ∨ b.busy = true)) := by
  refine ⟨?_, ?_, ?_⟩
  · intro hab hbb
    constructor
    · simp [RcOCell.swap, hab, hbb, hx, hy]
    · simp [RcOCell.try_swap, RcOCell.tryBorrowMutE, RcOCell.swap, hab, hbb, hx, hy]
  · cases hab : a.busy <;> cases hbb : b.busy <;> simp [RcOCell.swap, hab, hbb]
  · cases hab : a.busy <;> cases hbb : b.busy <;>
      simp [RcOCell.try_swap, RcOCell.tryBorrowMutE, RcOCell.swap, hab, hbb, hx, hy]

theorem claim_C4_witness :
    RcOCell.swap (⟨some 10, 0, false⟩ : CellState Nat) ⟨some 20, 0, false⟩
        = some (⟨some 20, 0, false⟩, ⟨some 10, 0, false⟩)
      ∧ RcOCell.try_swap (⟨some 10, 0, false⟩ : CellState Nat) ⟨some 20, 0, false⟩
        = some (.ok (), ⟨some 20, 0, false⟩, ⟨some 10, 0, false⟩)
      ∧ RcOCell.try_swap (⟨some 10, 0, true⟩ : CellState Nat) ⟨some 20, 0, false⟩
        = some (.error (.BorrowError .Mut), ⟨some 10, 0, true⟩, ⟨some 20, 0, false⟩) := by
  have h1 := (claim_C4 Nat ⟨some 10, 0, false⟩ ⟨some 20, 0, false⟩ 10 20 rfl rfl).1
    (by decide) (by decide)
  have h2 := (claim_C4 Nat ⟨some 10, 0, true⟩ ⟨some 20, 0, false⟩ 10 20 rfl rfl).2.2.2
    (Or.inl (by decide))
  obtain ⟨e, he⟩ := h2
  refine ⟨h1.1, h1.2, ?_⟩
  have : e = .BorrowError .Mut := by
    have hcalc : RcOCell.try_swap (⟨some 10, 0, true⟩ : CellState Nat) ⟨some 20, 0, false⟩
        = some (.error (.BorrowError .Mut), ⟨some 10, 0, true⟩, ⟨some 20, 0, false⟩) := rfl
    rw [hcalc] at he
    cases he
    rfl
  rw [← this]
  exact he

/-- C3, counterexample: `try_swap` between two handles of the same slot,
on a slot holding a value with no outstanding guard, panics rather than
returning: both `try_borrow_mut` probes succeed, and the final
`RefCell::swap` mutably borrows the one `RefCell` twice. -/
theorem claim_C3_cex :
    RcOCell.try_swap_same (⟨some 0, 0, false⟩ : CellState Nat) = none := rfl

/-- C3, amended: every `try` operation — `try_borrow`, `try_borrow_mut`,
`try_compute`, `try_compute_if_present`, `try_if_present`,
`try_if_present_mut`, `try_get_and_clear`, `try_replace`, `try_set`,
`try_clear`, `try_map`, `try_map_mut`, `try_get_and_clone`,
`try_upgrade`, and `try_swap` between handles of two distinct slots —
returns (succeeds or yields a typed error) in every state, with the one
exception of `try_swap` between two handles of the same slot: that call
returns a typed error when the slot is empty or already borrowed, but
aborts (the aliased `RefCell::swap` panics) exactly when the slot holds a
value and no guard is outstanding. -/
theorem claim_C3 (α β : Type) :
    (∀ s : CellState α, (RcOCell.try_borrow s).isSome = true)
      ∧ (∀ s : CellState α, (RcOCell.try_borrow_mut s).isSome = true)
      ∧ (∀ (f : Option α → Option α × RcOCellComputeResult α) (s : CellState α),
          (RcOCell.try_compute f s).isSome = true)
      ∧ (∀ (f : α → α × RcOCellComputeResult α) (s : CellState α),
          (RcOCell.try_compute_if_present f s).isSome = true)
      ∧ (∀ (f : α → RcOCellComputeResult α) (s : CellState α),
          (RcOCell.try_if_present f s).isSome = true)
      ∧ (∀ (f : α → α × RcOCellComputeResult α) (s : CellState α),
          (RcOCell.try_if_present_mut f s).isSome = true)
      ∧ (∀ s : CellState α, (RcOCell.try_get_and_clear s).isSome = true)
      ∧ (∀ (v : α) (s : CellState α), (RcOCell.try_replace v s).isSome = true)
      ∧ (∀ (v : α) (s : CellState α), (RcOCell.try_set v s).isSome = true)
      ∧ (∀ s : CellState α, (RcOCell.try_clear s).isSome = true)
      ∧ (∀ (g : α → β) (s : CellState α), (RcOCell.try_map g s).isSome = true)
      ∧ (∀ (g : α → α × β) (s : CellState α), (RcOCell.try_map_mut g s).isSome = true)
      ∧ (∀ a b : CellState α, (RcOCell.try_swap a b).isSome = true)
      ∧ (∀ s : CellState α, (RcOCell.try_get_and_clone s).isSome = true)
      ∧ (∀ w : WeakState α, (WeakRcOCell.try_upgrade w).isSome = true)
      ∧ (∀ s : CellState α,
          (RcOCell.try_swap_same s).isSome = (s.busy || s.value.isNone)) := by
  refine ⟨?_, ?_, ?_, ?_, ?_, ?_, ?_, ?_, ?_, ?_, ?_, ?_, ?_, ?_, ?_, ?_⟩
  · intro s
    simp [RcOCell.try_borrow]
  · intro s
    simp [RcOCell.try_borrow_mut]
  · intro f s
    cases hb : s.busy
    · cases h2 : (f s.value).2 <;>
        simp [RcOCell.try_compute, RcOCell.set, RcOCell.clear, rcReplace,
          CellState.busy_value, hb, h2]
    · simp [RcOCell.try_compute, hb]
  · intro f s
    cases hb : s.busy
    · cases hv : s.value with
      | none => simp [RcOCell.try_compute_if_present, hb, hv]
      | some v =>
        cases h2 : (f v).2 <;>
          simp [RcOCell.try_compute_if_present, RcOCell.set, RcOCell.clear, rcReplace,
            CellState.busy_value, hb, hv, h2]
    · simp [RcOCell.try_compute_if_present, hb]
  · intro f s
    cases hw : s.writer <;> cases hv : s.value <;>
      simp [RcOCell.try_if_present, hw, hv]
  · intro f s
    cases hb : s.busy <;> cases hv : s.value <;>
      simp [RcOCell.try_if_present_mut, hb, hv]
  · intro s
    cases hb : s.busy
    · cases hv : s.value <;>
        simp [RcOCell.try_get_and_clear, rcReplace, hb, hv]
    · simp [RcOCell.try_get_and_clear, hb]
  · intro v s
    cases hb : s.busy
    · cases hv : s.value <;>
        simp [RcOCell.try_replace, rcReplace, CellState.busy_value, hb, hv]
    · simp [RcOCell.try_replace, hb]
  · intro v s
    cases hb : s.busy <;>
      simp [RcOCell.try_set, RcOCell.set, rcReplace, hb]
  · intro s
    cases hb : s.busy <;>
      simp [RcOCell.try_clear, RcOCell.clear, rcReplace, hb]
  · intro g s
    cases hw : s.writer <;> cases hv : s.value <;>
      simp [RcOCell.try_map, hw, hv]
  · intro g s
    cases hb : s.busy <;> cases hv : s.value <;>
      simp [RcOCell.try_map_mut, hb, hv]
  · intro a b
    cases hab : a.busy
    · cases hav : a.value with
      | none => simp [RcOCell.try_swap, RcOCell.tryBorrowMutE, hab, hav]
      | some x =>
        cases hbb : b.busy
        · cases hbv : b.value <;>
            simp [RcOCell.try_swap, RcOCell.tryBorrowMutE, RcOCell.swap,
              hab, hav, hbb, hbv]
        · simp [RcOCell.try_swap, RcOCell.tryBorrowMutE, hab, hav, hbb]
    · simp [RcOCell.try_swap, RcOCell.tryBorrowMutE, hab]
  · intro s
    cases h : (RcOCell.tryBorrowE s).1 <;>
      simp [RcOCell.try_get_and_clone, h]
  · intro w
    simp [WeakRcOCell.try_upgrade]
  · intro s
    cases hb : s.busy
    · obtain ⟨hw, hr⟩ := (CellState.busy_eq_false s).mp hb
      cases hv : s.value <;>
        simp [RcOCell.try_swap_same, RcOCell.tryBorrowMutE, RcOCell.swap_same,
          rcBorrowMut, CellState.busy, hw, hr, hv]
    · simp [RcOCell.try_swap_same, RcOCell.tryBorrowMutE, hb]

/-- C7: once the slot is gone (`alive = false`), a weak handle reports
`is_none = true` and `is_some = false`, `try_upgrade` and every `try`
operation fail with `Dropped`, and every non-`try` operation panics;
while a strong owner exists (`alive = true`), every weak operation
behaves as the corresponding strong-cell operation after promotion
(`try_compute_if_absent` has no strong counterpart and wraps the strong
`compute_if_absent` result in `Ok`). -/
theorem claim_C7 (α β : Type) (w : WeakState α) (v : α) (fv : Option α)
    (f : Option α → Option α × RcOCellComputeResult α)
    (fp : α → RcOCellComputeResult α) (g : α → β) :
    (w.alive = false →
        WeakRcOCell.is_none w = true
          ∧ WeakRcOCell.is_some w = false
          ∧ WeakRcOCell.try_upgrade w = some (.error .Dropped)
          ∧ WeakRcOCell.try_set v w = some (.error .Dropped, w.cell)
          ∧ WeakRcOCell.try_clear w = some (.error .Dropped, w.cell)
          ∧ WeakRcOCell.try_replace v w = some (.error .Dropped, w.cell)
          ∧ WeakRcOCell.try_compute f w = some (.error .Dropped, w.cell)
          ∧ WeakRcOCell.try_get_and_clear w = some (.error .Dropped, w.cell)
          ∧ WeakRcOCell.try_get_and_clone w = some (.error .Dropped, w.cell)
          ∧ WeakRcOCell.try_compute_if_absent fv w = some (.error .Dropped, w.cell)
          ∧ WeakRcOCell.try_map g w = some (.error .Dropped, w.cell)
          ∧ WeakRcOCell.try_if_present fp w = some (.error .Dropped, w.cell)
          ∧ WeakRcOCell.upgrade w = none
          ∧ WeakRcOCell.set v w = none
          ∧ WeakRcOCell.clear w = none
          ∧ WeakRcOCell.replace v w = none
          ∧ WeakRcOCell.compute f w = none
          ∧ WeakRcOCell.get_and_clear w = none
          ∧ WeakRcOCell.get_and_clone w = none
          ∧ WeakRcOCell.compute_if_absent fv w = none
          ∧ WeakRcOCell.if_present fp w = none
          ∧ WeakRcOCell.map g w = none)
      ∧ (w.alive = true →
          (∀ p, RcOCell.compute_if_absent fv w.cell = some p →
              WeakRcOCell.try_compute_if_absent fv w = some (.ok p.1, p.2))
            ∧ WeakRcOCell.upgrade w = some w.cell
            ∧ WeakRcOCell.is_some w = RcOCell.is_some w.cell
            ∧ WeakRcOCell.is_none w = RcOCell.is_none w.cell
            ∧ WeakRcOCell.set v w = RcOCell.set v w.cell
            ∧ WeakRcOCell.try_set v w = RcOCell.try_set v w.cell
            ∧ WeakRcOCell.clear w = RcOCell.clear w.cell
            ∧ WeakRcOCell.try_clear w = RcOCell.try_clear w.cell
            ∧ WeakRcOCell.replace v w = RcOCell.replace v w.cell
            ∧ WeakRcOCell.try_replace v w = RcOCell.try_replace v w.cell
            ∧ WeakRcOCell.compute f w = RcOCell.compute f w.cell
            ∧ WeakRcOCell.try_compute f w = RcOCell.try_compute f w.cell
            ∧ WeakRcOCell.get_and_clear w = RcOCell.get_and_clear w.cell
            ∧ WeakRcOCell.try_get_and_clear w = RcOCell.try_get_and_clear w.cell
            ∧ WeakRcOCell.get_and_clone w = RcOCell.get_and_clone w.cell
            ∧ WeakRcOCell.try_get_and_clone w = RcOCell.try_get_and_clone w.cell
            ∧ WeakRcOCell.compute_if_absent fv w = RcOCell.compute_if_absent fv w.cell
            ∧ WeakRcOCell.if_present fp w = RcOCell.if_present fp w.cell
            ∧ WeakRcOCell.try_if_present fp w = RcOCell.try_if_present fp w.cell
            ∧ WeakRcOCell.map g w = RcOCell.map g w.cell
            ∧ WeakRcOCell.try_map g w = RcOCell.try_map g w.cell) := by
  constructor
  · intro h
    simp [WeakRcOCell.is_none, WeakRcOCell.is_some, WeakRcOCell.try_upgrade,
      WeakRcOCell.tryUpgradeE, WeakRcOCell.try_set, WeakRcOCell.try_clear,
      WeakRcOCell.try_replace, WeakRcOCell.try_compute, WeakRcOCell.try_get_and_clear,
      WeakRcOCell.try_get_and_clone, WeakRcOCell.try_compute_if_absent,
      WeakRcOCell.try_map, WeakRcOCell.try_if_present, WeakRcOCell.upgrade,
      WeakRcOCell.set, WeakRcOCell.clear, WeakRcOCell.replace, WeakRcOCell.compute,
      WeakRcOCell.get_and_clear, WeakRcOCell.get_and_clone,
      WeakRcOCell.compute_if_absent, WeakRcOCell.if_present, WeakRcOCell.map, h]
  · intro h
    refine ⟨fun p hp => ?_, ?_⟩
    · simp [WeakRcOCell.try_compute_if_absent, h, hp]
    · simp [WeakRcOCell.upgrade, WeakRcOCell.is_some, WeakRcOCell.is_none,
        RcOCell.is_some, RcOCell.is_none, WeakRcOCell.set, WeakRcOCell.try_set,
        WeakRcOCell.clear, WeakRcOCell.try_clear, WeakRcOCell.replace,
        WeakRcOCell.try_replace, WeakRcOCell.compute, WeakRcOCell.try_compute,
        WeakRcOCell.get_and_clear, WeakRcOCell.try_get_and_clear,
        WeakRcOCell.get_and_clone, WeakRcOCell.try_get_and_clone,
        WeakRcOCell.compute_if_absent, WeakRcOCell.if_present,
        WeakRcOCell.try_if_present, WeakRcOCell.map, WeakRcOCell.try_map, h]

theorem claim_C7_witness :
    WeakRcOCell.is_none (⟨false, ⟨some 1, 0, false⟩⟩ : WeakState Nat) = true
      ∧ WeakRcOCell.is_some (⟨false, ⟨some 1, 0, false⟩⟩ : WeakState Nat) = false
      ∧ WeakRcOCell.try_upgrade (⟨false, ⟨some 1, 0, false⟩⟩ : WeakState Nat)
        = some (.error .Dropped)
      ∧ WeakRcOCell.upgrade (⟨false, ⟨some 1, 0, false⟩⟩ : WeakState Nat) = none
      ∧ WeakRcOCell.set 2 (⟨false, ⟨some 1, 0, false⟩⟩ : WeakState Nat) = none
      ∧ WeakRcOCell.upgrade (⟨true, ⟨some 1, 0, false⟩⟩ : WeakState Nat)
        = some ⟨some 1, 0, false⟩
      ∧ WeakRcOCell.set 2 (⟨true, ⟨some 1, 0, false⟩⟩ : WeakState Nat)
        = RcOCell.set 2 (⟨some 1, 0, false⟩ : CellState Nat) := by
  have hd := (claim_C7 Nat Nat ⟨false, ⟨some 1, 0, false⟩⟩ 2 (some 3)
      (fun o => (o, .DoNothing)) (fun _ => .DoNothing) (fun n => n)).1 rfl
  have ha := (claim_C7 Nat Nat ⟨true, ⟨some 1, 0, false⟩⟩ 2 (some 3)
      (fun o => (o, .DoNothing)) (fun _ => .DoNothing) (fun n => n)).2 rfl
  obtain ⟨d1, d2, d3, d4, d5, d6, d7, d8, d9, d10, d11, d12, d13, d14, d15, d16,
    d17, d18, d19, d20, d21, d22⟩ := hd
  obtain ⟨a1, a2, a3, a4, a5, a6, a7, a8, a9, a10, a11, a12, a13, a14, a15, a16,
    a17, a18, a19, a20, a21⟩ := ha
  exact ⟨d1, d2, d3, d13, d14, a2, a5⟩

end RcO
